import Mathlib

/-!
Verification development for the yuxu-flow static file server
(src/docs/serve.py).  The script subclasses
http.server.SimpleHTTPRequestHandler, overriding end_headers to append an
Access-Control-Allow-Origin header, installs a ".wasm" entry in the shared
extensions_map, and runs socketserver.TCPServer(("", 8080), ...).serve_forever().

All request handling is performed by the CPython 3.11 standard library the
script builds on, so the definitions below are translated from those library
sources as executed by the script:
  - http/server.py: BaseHTTPRequestHandler.handle_one_request, send_error,
    send_header and end_headers, SimpleHTTPRequestHandler.do_GET, do_HEAD,
    send_head, list_directory, guess_type, translate_path, extensions_map;
  - posixpath.py: normpath, splitext (genericpath._splitext);
  - urllib/parse.py: unquote, urlsplit and urlunsplit as used above;
  - socketserver.py: TCPServer bind in the constructor, serve_forever and
    the per-request exception handling of _handle_request_noblock.

Modelling conventions, stated once here:
  - bytes are Nat values; strings are encoded to bytes with real UTF-8;
  - the filesystem is an immutable snapshot: a finite association list from
    absolute path components to nodes (regular file with content, or
    directory); symbolic links, permissions and timestamps are not part of
    the snapshot, so the Last-Modified header, the If-Modified-Since cache
    branch and the Date and Server headers (whose values are clock and
    version strings) are omitted from the modelled header list;
  - requests are already-parsed HTTP/1.x request lines in origin form
    (method and raw target); the HTTP/0.9 no-header mode and pre-parse
    failures (overlong or malformed request lines) are outside the model;
  - percent decoding maps each %XX escape to the code point XX; multi byte
    UTF-8 escape sequences are not reassembled (no claim involves them);
  - str.rstrip and str.lower are modelled on their ASCII behaviour;
  - posixpath.normpath joins its component list with "/" and
    translate_path immediately re-splits on "/"; since the joined
    components are nonempty and slash-free the round trip is the identity
    and the model keeps the component list directly.
-/

/-- A node of the filesystem snapshot: a regular file with its byte
content, or a directory. -/
inductive FSNode
  | file (content : List Nat)
  | dir
deriving DecidableEq

/-- Filesystem snapshot: association list from absolute path components to
nodes (first binding wins, as os.path queries see one filesystem state). -/
structure FS where
  entries : List (List String × FSNode)
deriving DecidableEq

/-- os.path existence query: the node at path p, if any. -/
def FS.lookup (fs : FS) (p : List String) : Option FSNode :=
  (fs.entries.find? (fun e => e.1 == p)).map (fun e => e.2)

/-- os.path.isdir. -/
def FS.isdirAt (fs : FS) (p : List String) : Bool :=
  match fs.lookup p with
  | some FSNode.dir => true
  | _ => false

/-- os.path.isfile. -/
def FS.isfileAt (fs : FS) (p : List String) : Bool :=
  match fs.lookup p with
  | some (FSNode.file _) => true
  | _ => false

/-- os.listdir: names of the immediate children of directory p. -/
def FS.listdir (fs : FS) (p : List String) : List String :=
  fs.entries.filterMap (fun e =>
    if e.1.length == p.length + 1 && e.1.take p.length == p then e.1.getLast? else none)

/-- A parsed HTTP/1.x request: self.command and self.path of the handler. -/
structure Request where
  method : String
  path : String
deriving DecidableEq

/-- An HTTP response: status code, header lines in the order they enter the
headers buffer, and the body bytes written after the blank line. -/
structure Response where
  status : Nat
  headers : List (String × String)
  body : List Nat
deriving DecidableEq

/-- Value of the first header line with the given name, if any. -/
def Response.headerValue (r : Response) (name : String) : Option String :=
  (r.headers.find? (fun e => e.1 == name)).map (fun e => e.2)

/-- UTF-8 encoding of one code point. -/
def utf8Encode (c : Nat) : List Nat :=
  if c < 128 then [c]
  else if c < 2048 then [192 + c / 64, 128 + c % 64]
  else if c < 65536 then [224 + c / 4096, 128 + c / 64 % 64, 128 + c % 64]
  else [240 + c / 262144, 128 + c / 4096 % 64, 128 + c / 64 % 64, 128 + c % 64]

/-- str.encode with UTF-8. -/
def encodeStr (s : String) : List Nat :=
  s.data.foldr (fun c acc => utf8Encode c.toNat ++ acc) []

/-- Characters stripped by str.rstrip (ASCII whitespace). -/
def pythonSpaceChars : List Char :=
  [' ', Char.ofNat 9, Char.ofNat 10, Char.ofNat 13, Char.ofNat 11, Char.ofNat 12]

/-- str.rstrip with no argument. -/
def rstripChars (cs : List Char) : List Char :=
  (cs.reverse.dropWhile (fun c => pythonSpaceChars.contains c)).reverse

/-- path.split with separator "?" keeping the first piece, then the same
with "#": the prefix before the first query or fragment delimiter. -/
def stripQueryFrag (cs : List Char) : List Char :=
  (cs.takeWhile (fun c => !(c == '?'))).takeWhile (fun c => !(c == '#'))

/-- str.endswith for a single slash. -/
def endsWithSlash (cs : List Char) : Bool := cs.getLast? == some '/'

/-- Hexadecimal digit test used by percent decoding. -/
def isHexDigitChar (c : Char) : Bool :=
  c.isDigit || ('a' ≤ c && c ≤ 'f') || ('A' ≤ c && c ≤ 'F')

/-- Value of a hexadecimal digit. -/
def hexCharVal (c : Char) : Nat :=
  if c.isDigit then c.toNat - 48 else if 'a' ≤ c then c.toNat - 87 else c.toNat - 55

/-- urllib.parse.unquote: each %XX escape with two hex digits becomes the
code point XX; malformed escapes are kept verbatim. -/
def unquoteChars : List Char → List Char
  | '%' :: h1 :: h2 :: rest =>
    if isHexDigitChar h1 && isHexDigitChar h2 then
      Char.ofNat (16 * hexCharVal h1 + hexCharVal h2) :: unquoteChars rest
    else
      '%' :: unquoteChars (h1 :: h2 :: rest)
  | c :: rest => c :: unquoteChars rest
  | [] => []

/-- str.split on a slash, keeping empty pieces, as in posixpath.normpath. -/
def splitSlash (cs : List Char) : List (List Char) :=
  cs.foldr
    (fun c acc =>
      match acc with
      | [] => [[c]]
      | g :: gs => if c == '/' then [] :: g :: gs else (c :: g) :: gs)
    [[]]

/-- The component "." of posixpath.normpath. -/
def dotComp : List Char := ['.']

/-- The component ".." of posixpath.normpath. -/
def ddComp : List Char := ['.', '.']

/-- One iteration of the component loop of posixpath.normpath: empty and
dot components are dropped, dotdot pops the previous component unless the
path is relative with nothing accumulated (or already ends in dotdot). -/
def normpathStep (initialSlashes : Bool) (acc : List (List Char)) (comp : List Char) :
    List (List Char) :=
  if comp == ([] : List Char) || comp == dotComp then acc
  else if !(comp == ddComp) || (!initialSlashes && acc.isEmpty) ||
      (!acc.isEmpty && acc.getLast? == some ddComp) then
    acc ++ [comp]
  else if !acc.isEmpty then acc.dropLast
  else acc

/-- Component list produced by posixpath.normpath (the joined string is
re-split by translate_path, so the model keeps the list). -/
def normpathComps (initialSlashes : Bool) (comps : List (List Char)) : List (List Char) :=
  comps.foldl (normpathStep initialSlashes) []

/-- SimpleHTTPRequestHandler.translate_path: strips query and fragment,
records the explicit trailing slash, percent-decodes, normalizes, then
keeps only plain component names, to be joined under self.directory.
Returns the component list relative to the root and the trailing flag. -/
def translatePath (p : String) : List String × Bool :=
  let cs := stripQueryFrag p.data
  let trailing := endsWithSlash (rstripChars cs)
  let unquoted := unquoteChars cs
  let initialSlashes := unquoted.head? == some '/'
  let words := (normpathComps initialSlashes (splitSlash unquoted)).map
    (fun w => String.mk w)
  (words.filter (fun w => !(w.isEmpty) && !(w == ".") && !(w == "..")), trailing)

/-- ASCII str.lower. -/
def lowerChars (cs : List Char) : List Char := cs.map Char.toLower

/-- genericpath._splitext restricted to its extension result: the part of
the last path segment from its last dot onwards, unless the dots of that
segment are all leading (then the extension is empty). -/
def splitextExt (cs : List Char) : List Char :=
  let lastSeg := (cs.reverse.takeWhile (fun c => !(c == '/'))).reverse
  let rev := lastSeg.reverse
  let afterDotRev := rev.takeWhile (fun c => !(c == '.'))
  if afterDotRev.length == rev.length then []
  else if (rev.drop (afterDotRev.length + 1)).any (fun c => !(c == '.')) then
    '.' :: afterDotRev.reverse
  else []

/-- Lookup in an association list modelling a Python dict. -/
def lookupMap (m : List (String × String)) (k : String) : Option String :=
  (m.find? (fun e => e.1 == k)).map (fun e => e.2)

/-- Python dict item assignment: update in place if the key exists,
otherwise append in insertion order. -/
def setItem (m : List (String × String)) (k v : String) : List (String × String) :=
  if m.any (fun e => e.1 == k) then m.map (fun e => if e.1 == k then (k, v) else e)
  else m ++ [(k, v)]

/-- SimpleHTTPRequestHandler.extensions_map as the class defines it. -/
def extensionsMapDefault : List (String × String) :=
  [(".gz", "application/gzip"), (".Z", "application/octet-stream"),
   (".bz2", "application/x-bzip2"), (".xz", "application/x-xz")]

/-- The mapping after the module-level statement
WASMHandler.extensions_map[".wasm"] = "application/wasm" ran at startup. -/
def extensionsMapStartup : List (String × String) :=
  setItem extensionsMapDefault ".wasm" "application/wasm"

/-- SimpleHTTPRequestHandler.guess_type: the extension is looked up in
extensions_map as is and lowercased, then mimetypes.guess_type is
consulted (the platform table is the abstract parameter mimeGuess), with
application/octet-stream as the final fallback. -/
def guessType (mimeGuess : String → Option String) (extMap : List (String × String))
    (path : List Char) : String :=
  match lookupMap extMap (String.mk (splitextExt path)) with
  | some t => t
  | none =>
    match lookupMap extMap (String.mk (lowerChars (splitextExt path))) with
    | some t => t
    | none =>
      match mimeGuess (String.mk path) with
      | some g => g
      | none => "application/octet-stream"

/-- The filesystem path string translate_path builds under self.directory,
for guess_type and the trailing slash check: the root components joined
absolute, then each kept word appended with os.path.join. -/
def joinedPathString (root rel : List String) (trailing : Bool) : List Char :=
  '/' :: (List.intercalate ['/'] ((root ++ rel).map (fun s => s.data))
    ++ (if trailing then ['/'] else []))

/-- The CORS header line the WASMHandler.end_headers override sends. -/
def corsHeader : String × String := ("Access-Control-Allow-Origin", "*")

/-- WASMHandler.end_headers: one more send_header call appends the CORS
line to the buffered headers of the response, then the headers end. -/
def wasmEndHeaders (buffered : List (String × String)) : List (String × String) :=
  buffered ++ [corsHeader]

/-- A finalized response: every handler path ends its headers through the
overridden end_headers, so the CORS line is appended to the buffer. -/
def mkResponse (status : Nat) (hdrs : List (String × String)) (body : List Nat) : Response :=
  { status := status, headers := wasmEndHeaders hdrs, body := body }

/-- The (phrase, explanation) table BaseHTTPRequestHandler.responses holds
for the codes this server can send; unknown codes give the ??? pair. -/
def httpResponses (code : Nat) : String × String :=
  if code == 200 then ("OK", "Request fulfilled, document follows")
  else if code == 301 then ("Moved Permanently", "Object moved permanently -- see URI list")
  else if code == 404 then ("Not Found", "Nothing matches the given URI")
  else if code == 501 then ("Not Implemented", "Server does not support this operation")
  else ("???", "???")

/-- html.escape with quote=False. -/
def htmlEscape (cs : List Char) : List Char :=
  cs.foldr
    (fun c acc =>
      (if c == '&' then String.data "&amp;"
       else if c == '<' then String.data "&lt;"
       else if c == '>' then String.data "&gt;" else [c]) ++ acc)
    []

/-- DEFAULT_ERROR_MESSAGE of http.server, rendered with the code, the
escaped message and the escaped explanation. -/
def errorMessageFormat (code : Nat) (message explain : String) : String :=
  "<!DOCTYPE HTML>\n<html lang=\"en\">\n    <head>\n        <meta charset=\"utf-8\">\n        <title>Error response</title>\n    </head>\n    <body>\n        <h1>Error response</h1>\n        <p>Error code: "
    ++ toString code ++ "</p>\n        <p>Message: " ++ String.mk (htmlEscape message.data)
    ++ ".</p>\n        <p>Error code explanation: " ++ toString code ++ " - "
    ++ String.mk (htmlEscape explain.data) ++ ".</p>\n    </body>\n</html>\n"

/-- Byte content of the error page send_error writes. -/
def errorBody (code : Nat) (message explain : String) : List Nat :=
  encodeStr (errorMessageFormat code message explain)

/-- BaseHTTPRequestHandler.send_error: Connection close, the error content
type and length headers when the code allows a body, the overridden
end_headers, then the error page unless the command was HEAD. -/
def sendError (isHead : Bool) (code : Nat) (message : Option String) : Response :=
  let msg := message.getD (httpResponses code).1
  let explain := (httpResponses code).2
  let hasBody := decide (200 ≤ code) && !(code == 204) && !(code == 205) && !(code == 304)
  let body := if hasBody then errorBody code msg explain else []
  mkResponse code
    ([("Connection", "close")] ++
      (if hasBody then
        [("Content-Type", "text/html;charset=utf-8"),
         ("Content-Length", toString body.length)]
      else []))
    (if hasBody && !isHead then body else [])

/-- The 200 branch of send_head followed by do_GET or do_HEAD: content
type and length headers, the overridden end_headers, then copyfile streams
the open file unless the command was HEAD. -/
def serveFile (isHead : Bool) (ctype : String) (content : List Nat) : Response :=
  mkResponse 200
    [("Content-type", ctype), ("Content-Length", toString content.length)]
    (if isHead then [] else content)

/-- The part of the request target after the first hash sign, and the part
before it, as urlsplit separates the fragment. -/
def splitFrag (cs : List Char) : List Char × List Char :=
  (cs.takeWhile (fun c => !(c == '#')), (cs.dropWhile (fun c => !(c == '#'))).drop 1)

/-- The query split urlsplit performs after removing the fragment. -/
def splitQuery (cs : List Char) : List Char × List Char :=
  (cs.takeWhile (fun c => !(c == '?')), (cs.dropWhile (fun c => !(c == '?'))).drop 1)

/-- The Location value of the directory redirect: urlunsplit of the parts
of self.path with a slash appended to the path part (scheme and netloc are
empty for an origin form target). -/
def redirectLocation (p : String) : String :=
  let pf := splitFrag p.data
  let pq := splitQuery pf.1
  String.mk (pq.1 ++ ['/']
    ++ (if pq.2.isEmpty then [] else '?' :: pq.2)
    ++ (if pf.2.isEmpty then [] else '#' :: pf.2))

/-- The directory redirect of send_head: 301 with the Location and a zero
Content-Length, no body. -/
def redirectResponse (location : String) : Response :=
  mkResponse 301 [("Location", location), ("Content-Length", "0")] []

/-- Strict ASCII-lexicographic order on character lists, for the sort key
comparison of list_directory. -/
def charListLt : List Char → List Char → Bool
  | [], [] => false
  | [], _ :: _ => true
  | _ :: _, [] => false
  | a :: as, b :: bs => if a == b then charListLt as bs else decide (a < b)

/-- Stable insertion into a list sorted by the lowercased name, matching
list.sort(key=lambda a: a.lower()). -/
def insertByLower (x : String) : List String → List String
  | [] => [x]
  | y :: ys =>
    if charListLt (lowerChars y.data) (lowerChars x.data) then y :: insertByLower x ys
    else x :: y :: ys

/-- list.sort with the lowercase key, stable ascending. -/
def sortLower (l : List String) : List String := l.foldr insertByLower []

/-- Characters urllib.parse.quote leaves unescaped with the default
safe="/": ASCII letters, digits, underscore, dot, dash, tilde, slash. -/
def isUrlSafeChar (c : Char) : Bool :=
  c.isAlpha || c.isDigit || c == '_' || c == '.' || c == '-' || c == '~' || c == '/'

/-- Uppercase hexadecimal digit. -/
def hexDigitU (n : Nat) : Char := if n < 10 then Char.ofNat (48 + n) else Char.ofNat (55 + n)

/-- Percent escape of one byte, uppercase as urllib.parse.quote emits. -/
def percentByte (b : Nat) : List Char := ['%', hexDigitU (b / 16), hexDigitU (b % 16)]

/-- urllib.parse.quote with safe="/": unsafe characters become the percent
escapes of their UTF-8 bytes. -/
def urlQuote (cs : List Char) : List Char :=
  cs.foldr
    (fun c acc =>
      (if isUrlSafeChar c then [c]
       else (utf8Encode c.toNat).foldr (fun b a => percentByte b ++ a) []) ++ acc)
    []

/-- One list item line of the directory listing for a child (name, isdir);
a directory gets a slash appended to both the link and the display name
(symbolic links do not occur in the snapshot). -/
def listItemLine (e : String × Bool) : String :=
  "<li><a href=\"" ++ String.mk (urlQuote (if e.2 then e.1 ++ "/" else e.1).data)
    ++ "\">" ++ String.mk (htmlEscape (if e.2 then e.1 ++ "/" else e.1).data)
    ++ "</a></li>"

/-- SimpleHTTPRequestHandler.list_directory on an os.listdir that
succeeded (the snapshot has no permission bits, so the OSError branch does
not arise): the HTML page over the sorted annotated child names, with a
200 status; the body is streamed by do_GET but not do_HEAD. -/
def listDirectory (isHead : Bool) (reqPath : String) (entries : List (String × Bool)) :
    Response :=
  let displaypath := String.mk (htmlEscape (unquoteChars reqPath.data))
  let title := "Directory listing for " ++ displaypath
  let encoded := encodeStr (String.intercalate "\n"
    (["<!DOCTYPE HTML>", "<html lang=\"en\">", "<head>", "<meta charset=\"utf-8\">",
      "<title>" ++ title ++ "</title>\n</head>",
      "<body>\n<h1>" ++ title ++ "</h1>", "<hr>\n<ul>"]
      ++ entries.map listItemLine ++ ["</ul>\n<hr>\n</body>\n</html>\n"]))
  mkResponse 200
    [("Content-type", "text/html; charset=utf-8"),
     ("Content-Length", toString encoded.length)]
    (if isHead then [] else encoded)

/-- The sorted (name, isdir) pairs list_directory renders for a directory. -/
def listingEntries (fs : FS) (dirComps : List String) : List (String × Bool) :=
  (sortLower (FS.listdir fs dirComps)).map (fun n => (n, FS.isdirAt fs (dirComps ++ [n])))

/-- The index file branch of send_head: the path extended with the index
name is opened and served with its guessed type (an open failure would be
a 404, unreachable right after the isfile check in the snapshot model). -/
def serveIndex (mimeGuess : String → Option String) (extMap : List (String × String))
    (fs : FS) (root rel : List String) (isHead : Bool) (idx : String) : Response :=
  match FS.lookup fs (root ++ rel ++ [idx]) with
  | some (FSNode.file content) =>
    serveFile isHead (guessType mimeGuess extMap (joinedPathString root (rel ++ [idx]) false))
      content
  | _ => sendError isHead 404 (some "File not found")

/-- SimpleHTTPRequestHandler.send_head as run by do_GET and do_HEAD, with
the translated path precomputed: a directory target without a trailing
slash in the url is redirected, a directory with one serves index.html,
then index.htm, then the generated listing; otherwise a trailing slash is
a 404, an existing regular file is served with its guessed content type,
and a failing open is a 404. -/
def sendHeadCore (mimeGuess : String → Option String) (extMap : List (String × String))
    (fs : FS) (root : List String) (req : Request) (rel : List String) (trailing : Bool) :
    Response :=
  if FS.isdirAt fs (root ++ rel) then
    if !(endsWithSlash (stripQueryFrag req.path.data)) then
      redirectResponse (redirectLocation req.path)
    else if FS.isfileAt fs (root ++ rel ++ ["index.html"]) then
      serveIndex mimeGuess extMap fs root rel (req.method == "HEAD") "index.html"
    else if FS.isfileAt fs (root ++ rel ++ ["index.htm"]) then
      serveIndex mimeGuess extMap fs root rel (req.method == "HEAD") "index.htm"
    else
      listDirectory (req.method == "HEAD") req.path (listingEntries fs (root ++ rel))
  else if trailing then
    sendError (req.method == "HEAD") 404 (some "File not found")
  else
    match FS.lookup fs (root ++ rel) with
    | some (FSNode.file content) =>
      serveFile (req.method == "HEAD")
        (guessType mimeGuess extMap (joinedPathString root rel trailing)) content
    | _ => sendError (req.method == "HEAD") 404 (some "File not found")

/-- repr of the method string as interpolated by the 501 message of
handle_one_request. -/
def unsupportedMethodMessage (m : String) : String :=
  "Unsupported method (" ++ String.mk [Char.ofNat 39] ++ m ++ String.mk [Char.ofNat 39] ++ ")"

/-- BaseHTTPRequestHandler.handle_one_request on a parsed request, run by
the WASMHandler class: only do_GET and do_HEAD exist, so any other method
is answered with a 501 error; GET and HEAD run send_head on the translated
request path. -/
def handleRequest (mimeGuess : String → Option String) (extMap : List (String × String))
    (fs : FS) (root : List String) (req : Request) : Response :=
  if req.method == "GET" || req.method == "HEAD" then
    sendHeadCore mimeGuess extMap fs root req (translatePath req.path).1
      (translatePath req.path).2
  else
    sendError (req.method == "HEAD") 501 (some (unsupportedMethodMessage req.method))

/-- The state the process holds for its lifetime: the filesystem the
requests read, the root directory fixed at startup (os.getcwd()), and the
extensions_map dict. -/
structure ServerState where
  fs : FS
  root : List String
  extMap : List (String × String)
deriving DecidableEq

/-- socketserver.BaseServer.process_request for one accepted request: the
handler runs and the server state is whatever the handler left (the
handler of serve.py only reads it). -/
def handleStep (mimeGuess : String → Option String) (s : ServerState) (req : Request) :
    Response × ServerState :=
  (handleRequest mimeGuess s.extMap s.fs s.root req, s)

/-- serve_forever over a finite trace of accepted requests: each request
is processed in turn; error responses are ordinary responses, and the
exception guard of _handle_request_noblock confines any handler failure
to its own request, so the loop always advances to the next request. -/
def serveForever (mimeGuess : String → Option String) :
    ServerState → List Request → List Response × ServerState
  | s, [] => ([], s)
  | s, req :: reqs =>
    let out := handleStep mimeGuess s req
    let rest := serveForever mimeGuess out.2 reqs
    (out.1 :: rest.1, rest.2)

/-- PORT of serve.py. -/
def PORT : Nat := 8080

/-- The host part of the address pair given to TCPServer: the empty
wildcard, all interfaces. -/
def bindHost : String := ""

/-- How the module-level code of serve.py can end. -/
inductive StartOutcome
  | fatal (exitStatus : Nat) (tracebackPrinted : Bool)
  | enteredLoop (printedLine : String)
deriving DecidableEq

/-- The module-level code: TCPServer(("", PORT), WASMHandler) binds inside
the constructor; an OSError there (address in use, no permission)
propagates out of the with statement unhandled, so the interpreter prints
the traceback and exits with status 1 and the body - the print and
serve_forever - never runs; a successful bind prints the serving line and
enters the accept loop. -/
def startScript (bindFails : Bool) : StartOutcome :=
  if bindFails then StartOutcome.fatal 1 true
  else StartOutcome.enteredLoop "Serving at http://localhost:8080"

/-- The ways the accept loop of serve.py stops. -/
inductive LoopEnd
  | interrupted
  | externalKill
deriving DecidableEq

/-- Exit status of the process as observed by its parent, per termination
cause: a bind failure is an unhandled OSError, interpreter status 1; an
explicit interrupt is an unhandled KeyboardInterrupt, which CPython
reports by dying on SIGINT after the traceback, observed status 130; an
external kill ends the process outside any Python exit path (observed as
the signal, not an exit, hence none). serve_forever itself never returns,
so no branch exits with status 0. -/
def scriptExitStatus (bindFails : Bool) (e : LoopEnd) : Option Nat :=
  if bindFails then some 1
  else
    match e with
    | LoopEnd.interrupted => some 130
    | LoopEnd.externalKill => none

theorem cors_mem_mkResponse (s : Nat) (h : List (String × String)) (b : List Nat) :
    corsHeader ∈ (mkResponse s h b).headers := by
  simp [mkResponse, wasmEndHeaders]

theorem cors_mem_sendError (ih : Bool) (c : Nat) (m : Option String) :
    corsHeader ∈ (sendError ih c m).headers := by
  unfold sendError
  exact cors_mem_mkResponse _ _ _

theorem cors_mem_serveFile (ih : Bool) (t : String) (b : List Nat) :
    corsHeader ∈ (serveFile ih t b).headers := by
  unfold serveFile
  exact cors_mem_mkResponse _ _ _

theorem cors_mem_redirectResponse (l : String) :
    corsHeader ∈ (redirectResponse l).headers := by
  unfold redirectResponse
  exact cors_mem_mkResponse _ _ _

theorem cors_mem_listDirectory (ih : Bool) (p : String) (es : List (String × Bool)) :
    corsHeader ∈ (listDirectory ih p es).headers := by
  unfold listDirectory
  exact cors_mem_mkResponse _ _ _

theorem cors_mem_serveIndex (mg : String → Option String) (em : List (String × String))
    (fs : FS) (root rel : List String) (ih : Bool) (idx : String) :
    corsHeader ∈ (serveIndex mg em fs root rel ih idx).headers := by
  unfold serveIndex
  split
  · exact cors_mem_serveFile _ _ _
  · exact cors_mem_sendError _ _ _

/-- C1: every response the handler produces, for any request method, path
and filesystem state, contains the header Access-Control-Allow-Origin
with value *, including error responses such as 404, because every
response path finalizes its headers through the overridden end_headers. -/
theorem spec_c1_cors_on_every_response (mimeGuess : String → Option String)
    (extMap : List (String × String)) (fs : FS) (root : List String) (req : Request) :
    corsHeader ∈ (handleRequest mimeGuess extMap fs root req).headers := by
  unfold handleRequest sendHeadCore
  repeat' split
  all_goals
    first
    | exact cors_mem_redirectResponse _
    | exact cors_mem_serveIndex _ _ _ _ _ _ _
    | exact cors_mem_listDirectory _ _ _
    | exact cors_mem_serveFile _ _ _
    | exact cors_mem_sendError _ _ _

/-- C10: a request whose method is neither GET nor HEAD is answered with
the 501 unsupported-method error, and that error response carries the
Access-Control-Allow-Origin header like every other response. -/
theorem spec_c10_unsupported_method (mimeGuess : String → Option String)
    (extMap : List (String × String)) (fs : FS) (root : List String) (req : Request)
    (hg : (req.method == "GET") = false) (hh : (req.method == "HEAD") = false) :
    (handleRequest mimeGuess extMap fs root req).status = 501 ∧
      corsHeader ∈ (handleRequest mimeGuess extMap fs root req).headers := by
  unfold handleRequest
  rw [hg, hh]
  simp only [Bool.or_self, Bool.false_eq_true, if_false]
  exact ⟨rfl, cors_mem_sendError _ _ _⟩

theorem spec_c10_witness :
    (handleRequest (fun _ => none) extensionsMapStartup (FS.mk []) []
        (Request.mk "POST" "/x")).status = 501 ∧
      corsHeader ∈ (handleRequest (fun _ => none) extensionsMapStartup (FS.mk []) []
        (Request.mk "POST" "/x")).headers :=
  spec_c10_unsupported_method (fun _ => none) extensionsMapStartup (FS.mk []) []
    (Request.mk "POST" "/x") (by decide) (by decide)

/-- C6: the script binds the fixed port 8080 on the wildcard address, and
a bind failure at startup is fatal: the unhandled OSError terminates the
process with the non-zero interpreter status 1 and a traceback diagnostic,
and the accept loop is never entered (a successful bind prints the
serving line and enters the loop). -/
theorem spec_c6_bind_failure_fatal :
    PORT = 8080 ∧ bindHost = "" ∧
      startScript true = StartOutcome.fatal 1 true ∧ 0 < 1 ∧
      startScript false = StartOutcome.enteredLoop "Serving at http://localhost:8080" := by
  refine ⟨rfl, rfl, rfl, ?_, rfl⟩
  decide

/-- C7 counterexample: the claim says an explicit interrupt of the running
server exits with code 0; on the code, the interrupt is an unhandled
KeyboardInterrupt, observed by the parent as status 130, not 0. -/
theorem spec_c7_counterexample :
    scriptExitStatus false LoopEnd.interrupted = some 130 ∧
      (scriptExitStatus false LoopEnd.interrupted == some 0) = false := by
  decide

/-- C7 amended: no termination of the process reports exit status 0; both
the startup bind failure and the explicit interrupt terminate with a
non-zero status, and otherwise the accept loop never returns. -/
theorem spec_c7_no_clean_exit (bindFails : Bool) (e : LoopEnd) (c : Nat)
    (h : scriptExitStatus bindFails e = some c) : 0 < c := by
  cases bindFails <;> cases e <;> simp_all [scriptExitStatus] <;> omega

theorem spec_c7_witness : 0 < 130 :=
  spec_c7_no_clean_exit false LoopEnd.interrupted 130 rfl

/-- C8: the accept loop handles every request of a trace: the response
list has one response per request, and each response is exactly the
handler output for that request against the unchanged startup state, so a
request answered with an HTTP error status never terminates the loop or
affects the handling of subsequent requests. -/
theorem spec_c8_loop_survives_errors (mimeGuess : String → Option String)
    (s : ServerState) (reqs : List Request) :
    (serveForever mimeGuess s reqs).1 =
        reqs.map (fun r => handleRequest mimeGuess s.extMap s.fs s.root r) ∧
      (serveForever mimeGuess s reqs).1.length = reqs.length := by
  have h : (serveForever mimeGuess s reqs).1 =
      reqs.map (fun r => handleRequest mimeGuess s.extMap s.fs s.root r) := by
    induction reqs with
    | nil => rfl
    | cons r rs ih => simpa [serveForever, handleStep] using ih
  exact ⟨h, by rw [h, List.length_map]⟩

/-- C9: request handling is read-only: after any sequence of requests the
server state - the filesystem snapshot, the root directory and the
extension-to-MIME mapping - is unchanged, and the startup mapping maps
.wasm to application/wasm for the process lifetime. -/
theorem spec_c9_handling_is_read_only (mimeGuess : String → Option String)
    (s : ServerState) (reqs : List Request) :
    (serveForever mimeGuess s reqs).2 = s ∧
      lookupMap extensionsMapStartup ".wasm" = some "application/wasm" := by
  constructor
  · induction reqs with
    | nil => rfl
    | cons r rs ih => simpa [serveForever, handleStep] using ih
  · decide

theorem handleRequest_get (mimeGuess : String → Option String)
    (extMap : List (String × String)) (fs : FS) (root : List String) (req : Request)
    (rel : List String) (trailing : Bool) (hm : req.method = "GET")
    (ht : translatePath req.path = (rel, trailing)) :
    handleRequest mimeGuess extMap fs root req =
      sendHeadCore mimeGuess extMap fs root req rel trailing := by
  unfold handleRequest
  rw [ht, hm]
  rfl

theorem sendHeadCore_file (mimeGuess : String → Option String)
    (extMap : List (String × String)) (fs : FS) (root : List String) (req : Request)
    (rel : List String) (content : List Nat)
    (hf : FS.lookup fs (root ++ rel) = some (FSNode.file content)) :
    sendHeadCore mimeGuess extMap fs root req rel false =
      serveFile (req.method == "HEAD")
        (guessType mimeGuess extMap (joinedPathString root rel false)) content := by
  unfold sendHeadCore FS.isdirAt
  rw [hf]
  rfl

theorem sendHeadCore_missing (mimeGuess : String → Option String)
    (extMap : List (String × String)) (fs : FS) (root : List String) (req : Request)
    (rel : List String) (trailing : Bool)
    (hf : FS.lookup fs (root ++ rel) = none) :
    sendHeadCore mimeGuess extMap fs root req rel trailing =
      sendError (req.method == "HEAD") 404 (some "File not found") := by
  unfold sendHeadCore FS.isdirAt
  rw [hf]
  cases trailing <;> rfl

/-- C3: a GET request whose translated path resolves to an existing
regular file under the root is answered with status 200 and a body whose
bytes are exactly the file content from the snapshot. -/
theorem spec_c3_existing_file_served (mimeGuess : String → Option String)
    (extMap : List (String × String)) (fs : FS) (root rel : List String) (req : Request)
    (content : List Nat) (hm : req.method = "GET")
    (ht : translatePath req.path = (rel, false))
    (hf : FS.lookup fs (root ++ rel) = some (FSNode.file content)) :
    (handleRequest mimeGuess extMap fs root req).status = 200 ∧
      (handleRequest mimeGuess extMap fs root req).body = content := by
  rw [handleRequest_get mimeGuess extMap fs root req rel false hm ht,
    sendHeadCore_file mimeGuess extMap fs root req rel content hf]
  simp [serveFile, mkResponse, hm]

def fsDocs : FS :=
  FS.mk [(["pub"], FSNode.dir), (["pub", "app.txt"], FSNode.file [104, 105])]

theorem spec_c3_witness :
    (handleRequest (fun _ => none) extensionsMapStartup fsDocs ["pub"]
        (Request.mk "GET" "/app.txt")).status = 200 ∧
      (handleRequest (fun _ => none) extensionsMapStartup fsDocs ["pub"]
        (Request.mk "GET" "/app.txt")).body = [104, 105] :=
  spec_c3_existing_file_served (fun _ => none) extensionsMapStartup fsDocs ["pub"]
    ["app.txt"] (Request.mk "GET" "/app.txt") [104, 105] rfl (by decide) (by decide)

/-- C4: a GET request whose translated path does not exist in the snapshot
is answered with status 404 and the minimal error page rendered from the
File not found message. -/
theorem spec_c4_missing_path_404 (mimeGuess : String → Option String)
    (extMap : List (String × String)) (fs : FS) (root rel : List String) (req : Request)
    (trailing : Bool) (hm : req.method = "GET")
    (ht : translatePath req.path = (rel, trailing))
    (hf : FS.lookup fs (root ++ rel) = none) :
    (handleRequest mimeGuess extMap fs root req).status = 404 ∧
      (handleRequest mimeGuess extMap fs root req).body =
        errorBody 404 "File not found" "Nothing matches the given URI" := by
  rw [handleRequest_get mimeGuess extMap fs root req rel trailing hm ht,
    sendHeadCore_missing mimeGuess extMap fs root req rel trailing hf]
  simp [sendError, mkResponse, hm, httpResponses]

theorem spec_c4_witness :
    (handleRequest (fun _ => none) extensionsMapStartup fsDocs ["pub"]
        (Request.mk "GET" "/missing.txt")).status = 404 ∧
      (handleRequest (fun _ => none) extensionsMapStartup fsDocs ["pub"]
        (Request.mk "GET" "/missing.txt")).body =
        errorBody 404 "File not found" "Nothing matches the given URI" :=
  spec_c4_missing_path_404 (fun _ => none) extensionsMapStartup fsDocs ["pub"]
    ["missing.txt"] (Request.mk "GET" "/missing.txt") false rfl (by decide) (by decide)

/-- C2: a GET request resolving to an existing regular file whose
translated path has extension .wasm is answered with the Content-type
header application/wasm, for every platform MIME table and every file
content, because the startup extensions_map entry is consulted first. -/
theorem spec_c2_wasm_content_type (mimeGuess : String → Option String) (fs : FS)
    (root rel : List String) (req : Request) (content : List Nat)
    (hm : req.method = "GET")
    (ht : translatePath req.path = (rel, false))
    (hf : FS.lookup fs (root ++ rel) = some (FSNode.file content))
    (he : splitextExt (joinedPathString root rel false) = String.data ".wasm") :
    (handleRequest mimeGuess extensionsMapStartup fs root req).headerValue "Content-type" =
      some "application/wasm" := by
  rw [handleRequest_get mimeGuess extensionsMapStartup fs root req rel false hm ht,
    sendHeadCore_file mimeGuess extensionsMapStartup fs root req rel content hf]
  unfold guessType
  rw [he]
  have hl : lookupMap extensionsMapStartup (String.mk (String.data ".wasm")) =
      some "application/wasm" := by decide
  rw [hl]
  rfl

theorem spec_c2_witness :
    (handleRequest (fun _ => none) extensionsMapStartup
        (FS.mk [(["mod.wasm"], FSNode.file [0, 97])]) []
        (Request.mk "GET" "/mod.wasm")).headerValue "Content-type" =
      some "application/wasm" :=
  spec_c2_wasm_content_type (fun _ => none)
    (FS.mk [(["mod.wasm"], FSNode.file [0, 97])]) [] ["mod.wasm"]
    (Request.mk "GET" "/mod.wasm") [0, 97] rfl (by decide) (by decide) (by decide)

/-- A snapshot with a secret file outside the root directory srv and a
same-named path inside it, to exercise a traversal request. -/
def fsTraversal : FS :=
  FS.mk [(["srv"], FSNode.dir), (["srv", "etc"], FSNode.dir),
    (["srv", "etc", "passwd"], FSNode.file [1, 2, 3]),
    (["etc", "passwd"], FSNode.file [9, 9, 9])]

/-- The traversal request of the claim. -/
def reqTraversal : Request := Request.mk "GET" "/../../etc/passwd"

/-- C5 counterexample: the claim says a traversal request is rejected with
a 403-equivalent or path-escape error; on the code the dotdot segments are
silently dropped, the request resolves to srv/etc/passwd inside the root
and is served normally with 200, and the body is the in-root file, not the
outside /etc/passwd. -/
theorem spec_c5_counterexample :
    (handleRequest (fun _ => none) extensionsMapStartup fsTraversal ["srv"]
        reqTraversal).status = 200 ∧
      (handleRequest (fun _ => none) extensionsMapStartup fsTraversal ["srv"]
        reqTraversal).body = [1, 2, 3] ∧
      ((handleRequest (fun _ => none) extensionsMapStartup fsTraversal ["srv"]
        reqTraversal).status == 403) = false ∧
      ((handleRequest (fun _ => none) extensionsMapStartup fsTraversal ["srv"]
        reqTraversal).body == [9, 9, 9]) = false := by
  decide

/-- q extends root: the resolved path of every request has this shape. -/
def underRoot (root q : List String) : Prop := ∃ t, q = root ++ t

theorem list_map_congr {α β : Type} {f g : α → β} :
    ∀ {l : List α}, (∀ a ∈ l, f a = g a) → l.map f = l.map g
  | [], _ => rfl
  | a :: l, h => by
    simp only [List.map]
    exact congrArg₂ _ (h a (by simp)) (list_map_congr fun b hb => h b (by simp [hb]))

/-- C5 amended: traversal segments are neutralized, not rejected: every
component of the translated path is a plain name (never dotdot, dot or
empty), so the resolved path always stays under the root, and the response
to any request is determined by the filesystem under the root alone - two
snapshots that agree on lookups and listings under the root get identical
responses - so no file outside the root directory is ever served; the
traversal request itself receives the ordinary response for the
neutralized in-root path (200 or 404), not a 403-equivalent. -/
theorem spec_c5_traversal_neutralized :
    (∀ p : String, ((translatePath p).1.all
        (fun w => !(w.isEmpty) && !(w == ".") && !(w == ".."))) = true) ∧
      (∀ (mimeGuess : String → Option String) (extMap : List (String × String))
        (fs fs' : FS) (root : List String) (req : Request),
        (∀ q, underRoot root q → FS.lookup fs q = FS.lookup fs' q) →
        (∀ q, underRoot root q → FS.listdir fs q = FS.listdir fs' q) →
        handleRequest mimeGuess extMap fs root req =
          handleRequest mimeGuess extMap fs' root req) := by
  constructor
  · intro p
    rw [List.all_eq_true]
    intro w hw
    simp only [translatePath] at hw
    exact (List.mem_filter.1 hw).2
  · intro mimeGuess extMap fs fs' root req hl hd
    have key : ∀ rel trailing, sendHeadCore mimeGuess extMap fs root req rel trailing =
        sendHeadCore mimeGuess extMap fs' root req rel trailing := by
      intro rel trailing
      have h1 : FS.isdirAt fs (root ++ rel) = FS.isdirAt fs' (root ++ rel) := by
        unfold FS.isdirAt
        rw [hl (root ++ rel) ⟨rel, rfl⟩]
      have h2 : ∀ i : String, FS.isfileAt fs (root ++ rel ++ [i]) =
          FS.isfileAt fs' (root ++ rel ++ [i]) := by
        intro i
        unfold FS.isfileAt
        rw [hl (root ++ rel ++ [i]) ⟨rel ++ [i], List.append_assoc root rel [i]⟩]
      have h3 : FS.lookup fs (root ++ rel) = FS.lookup fs' (root ++ rel) :=
        hl (root ++ rel) ⟨rel, rfl⟩
      have h4 : ∀ i : String, serveIndex mimeGuess extMap fs root rel
          (req.method == "HEAD") i =
          serveIndex mimeGuess extMap fs' root rel (req.method == "HEAD") i := by
        intro i
        unfold serveIndex
        rw [hl (root ++ rel ++ [i]) ⟨rel ++ [i], List.append_assoc root rel [i]⟩]
      have h5 : listingEntries fs (root ++ rel) = listingEntries fs' (root ++ rel) := by
        unfold listingEntries
        rw [hd (root ++ rel) ⟨rel, rfl⟩]
        exact list_map_congr (fun n _ => by
          unfold FS.isdirAt
          rw [hl (root ++ rel ++ [n]) ⟨rel ++ [n], List.append_assoc root rel [n]⟩])
      unfold sendHeadCore
      rw [h1, h2 "index.html", h2 "index.htm", h3, h4 "index.html", h4 "index.htm", h5]
    unfold handleRequest
    rw [key]

theorem spec_c5_witness :
    handleRequest (fun _ => none) extensionsMapStartup fsTraversal ["srv"] reqTraversal =
      handleRequest (fun _ => none) extensionsMapStartup fsTraversal ["srv"] reqTraversal :=
  spec_c5_traversal_neutralized.2 (fun _ => none) extensionsMapStartup fsTraversal
    fsTraversal ["srv"] reqTraversal (fun _ _ => rfl) (fun _ _ => rfl)
